import Mathlib

/-!
# Verification of the AI travel-companion agent graph

Shallow embedding of `src/notebooks/anil-cakmak/anil.ipynb`: the `AgentState`
schema with its per-field merge policies, the agent node functions, the
`exists_action` routing function, the graph wiring, and the `chat` console
guard are translated from the notebook source.  The graph executor, the
conditional-edge label resolution, and the checkpoint store are provided by
the LangGraph runtime, whose code is not part of this repository; those parts
are modelled from the specification (sections 4.3-4.5, 6) and are marked
`Modelled from the spec:` below.

External collaborators (the chat model and the web-search client) are opaque:
they are passed in as an `Oracle` of response functions, exactly as the spec
treats work-unit bodies as opaque `State -> partial update` functions.
-/

namespace TravelAgent

/-- A chat message: role plus text content (embeds the langchain message
objects; only `content` is ever inspected by the repository's code). -/
structure Message where
  role : String
  content : String
  deriving DecidableEq

/-- Python `pat in s` substring test on the underlying character list:
does the list start with `pat`? -/
def startsWithChars : List Char → List Char → Bool
  | _, [] => true
  | [], _ :: _ => false
  | c :: cs, p :: ps => c == p && startsWithChars cs ps

/-- Python `pat in s` substring test on the underlying character list:
does `pat` occur anywhere? -/
def hasSubChars : List Char → List Char → Bool
  | [], pat => pat.isEmpty
  | c :: cs, pat => startsWithChars (c :: cs) pat || hasSubChars cs pat

/-- Python's `pattern in message.content` and `re.search(r"Plan:", task)`
(the patterns contain no regex metacharacters) are both plain substring
containment. -/
def containsPattern (s pat : String) : Bool :=
  hasSubChars s.data pat.data

/-- Python `not user_input.strip()`: true iff the string is empty or all
whitespace (stripping leading/trailing whitespace leaves nothing). -/
def isBlank (s : String) : Bool :=
  s.data.all Char.isWhitespace

/-- The `AgentState` TypedDict of the notebook:
`messages : Annotated[list[AnyMessage], operator.add]` (append),
`task : str` (replace), `basic_plan : str` (replace),
`search : Annotated[list, operator.add]` (append), `research : str`
(replace).  Scalar fields are `Option` so that an absent key (TypedDict
keys are optional at runtime; `state.get("task", "")` guards for this)
is representable; the notebook stores a list of answer strings in
`research` and a list of per-advisor answer lists in `search`. -/
structure AgentState where
  messages : List Message
  task : Option String
  basic_plan : Option String
  search : List (List String)
  research : Option (List String)
  deriving DecidableEq

/-- A partial state update returned by a node: only the fields the node
changes are present (`none` = field not in the returned dict). -/
structure StateUpdate where
  messages : Option (List Message) := none
  task : Option String := none
  basic_plan : Option String := none
  search : Option (List (List String)) := none
  research : Option (List String) := none
  deriving DecidableEq

/-- Merge a partial update into the state, field by field, applying each
field's merge policy as declared in `AgentState`: `operator.add` fields
(`messages`, `search`) concatenate the new values after the existing
sequence; unannotated fields (`task`, `basic_plan`, `research`) are
overwritten when present in the update.  The policy table is fixed here,
at declaration time, and this single function is the only merge used by
the executor. -/
def AgentState.merge (s : AgentState) (u : StateUpdate) : AgentState :=
  { messages := s.messages ++ u.messages.getD []
    task := match u.task with | some t => some t | none => s.task
    basic_plan := match u.basic_plan with | some b => some b | none => s.basic_plan
    search := s.search ++ u.search.getD []
    research := match u.research with | some r => some r | none => s.research }

/-- The empty state: zero value for every field (empty sequences / absent
scalars), as produced for a never-seen thread id. -/
def emptyState : AgentState :=
  { messages := [], task := none, basic_plan := none, search := [], research := none }

/-- The opaque external collaborators: the chat-model completions and the
web-search answers consumed by the node bodies.  Each field corresponds to
one `model.invoke` / `model.with_structured_output(Queries).invoke` /
`tavily.search` call site in the notebook; the constant system-prompt
message that each call site prepends is absorbed into the corresponding
response function. -/
structure Oracle where
  userGuideReply : List Message → Message
  plannerReply : String → String
  transportQueries : String → List String
  accommodationQueries : String → List String
  itineraryReply : String → List (List String) → Message
  researcherQueries : String → List String
  optimizerReply : String → List String → Message
  tavilyAnswer : String → String

/-- `user_guide_node`: invoke the model on the system prompt plus the
conversation; if the reply contains `"Plan:"` or `"Refine:"` return
`{"task": reply}`, otherwise return `{"messages": [reply]}`. -/
def user_guide_node (o : Oracle) (s : AgentState) : Except String StateUpdate :=
  let message := o.userGuideReply s.messages
  if containsPattern message.content "Plan:" || containsPattern message.content "Refine:" then
    .ok { task := some message.content }
  else
    .ok { messages := some [message] }

/-- `exists_action`: routing function.  Reads `state.get("task", "")` (never
raises, even when the key is absent) and returns `"plan"`, `"refine"` or
`"assistant"` by substring search, in that order. -/
def exists_action (s : AgentState) : String :=
  let task := s.task.getD ""
  if containsPattern task "Plan:" then "plan"
  else if containsPattern task "Refine:" then "refine"
  else "assistant"

/-- `destination_planner_node`: reads `state['task']` (KeyError if absent)
and returns `{"basic_plan": reply}`. -/
def destination_planner_node (o : Oracle) (s : AgentState) : Except String StateUpdate :=
  match s.task with
  | none => .error "KeyError: task"
  | some task => .ok { basic_plan := some (o.plannerReply task) }

/-- `transport_advisor_node`: reads `state['basic_plan']`, generates search
queries, collects one web-search answer per query, and returns
`{"search": [transport_search]}` — a single appended item holding the
answer list. -/
def transport_advisor_node (o : Oracle) (s : AgentState) : Except String StateUpdate :=
  match s.basic_plan with
  | none => .error "KeyError: basic_plan"
  | some bp =>
    let transport_search := (o.transportQueries bp).map o.tavilyAnswer
    .ok { search := some [transport_search] }

/-- `accommodation_advisor_node`: same shape as the transport advisor,
returning `{"search": [accommodation_search]}`. -/
def accommodation_advisor_node (o : Oracle) (s : AgentState) : Except String StateUpdate :=
  match s.basic_plan with
  | none => .error "KeyError: basic_plan"
  | some bp =>
    let accommodation_search := (o.accommodationQueries bp).map o.tavilyAnswer
    .ok { search := some [accommodation_search] }

/-- `itinerary_planner_node`: reads `state['basic_plan']` and
`state['search']` and returns `{"messages": [reply]}`. -/
def itinerary_planner_node (o : Oracle) (s : AgentState) : Except String StateUpdate :=
  match s.basic_plan with
  | none => .error "KeyError: basic_plan"
  | some bp => .ok { messages := some [o.itineraryReply bp s.search] }

/-- `itinerary_researcher_node`: reads `state['task']`, collects one
web-search answer per generated query, returns `{"research": research}`. -/
def itinerary_researcher_node (o : Oracle) (s : AgentState) : Except String StateUpdate :=
  match s.task with
  | none => .error "KeyError: task"
  | some task => .ok { research := some ((o.researcherQueries task).map o.tavilyAnswer) }

/-- `itinerary_optimizer_node`: reads `state['task']` and
`state['research']`, returns `{"messages": [reply]}`. -/
def itinerary_optimizer_node (o : Oracle) (s : AgentState) : Except String StateUpdate :=
  match s.task, s.research with
  | some task, some research => .ok { messages := some [o.optimizerReply task research] }
  | none, _ => .error "KeyError: task"
  | _, none => .error "KeyError: research"

/-- The seven registered nodes of the graph (`graph.add_node` calls). -/
inductive Node where
  | user_guide
  | itinerary_researcher
  | itinerary_optimizer
  | destination_planner
  | transport_advisor
  | accommodation_advisor
  | itinerary_planner
  deriving DecidableEq

/-- An edge destination: a node, or the terminal marker `END`. -/
inductive Dest where
  | node (n : Node)
  | END
  deriving DecidableEq

/-- The work-function table: node name to node body (the
`graph.add_node(name, fn)` registrations), with the opaque collaborators
supplied by `o`. -/
def graphNodeFn (o : Oracle) : Node → AgentState → Except String StateUpdate
  | .user_guide => user_guide_node o
  | .itinerary_researcher => itinerary_researcher_node o
  | .itinerary_optimizer => itinerary_optimizer_node o
  | .destination_planner => destination_planner_node o
  | .transport_advisor => transport_advisor_node o
  | .accommodation_advisor => accommodation_advisor_node o
  | .itinerary_planner => itinerary_planner_node o

/-- The conditional-edge label mapping installed for `user_guide`:
`{"plan": "destination_planner", "refine": "itinerary_researcher",
"assistant": END}`. -/
def user_guide_mapping : String → Option Dest
  | "plan" => some (Dest.node Node.destination_planner)
  | "refine" => some (Dest.node Node.itinerary_researcher)
  | "assistant" => some Dest.END
  | _ => none

/-- The unconditional edge table, in `graph.add_edge` declaration order.
`user_guide` has only the conditional edge set. -/
def edges : Node → List Dest
  | .user_guide => []
  | .itinerary_researcher => [Dest.node Node.itinerary_optimizer]
  | .itinerary_optimizer => [Dest.END]
  | .destination_planner => [Dest.node Node.transport_advisor, Dest.node Node.accommodation_advisor]
  | .transport_advisor => [Dest.node Node.itinerary_planner]
  | .accommodation_advisor => [Dest.node Node.itinerary_planner]
  | .itinerary_planner => [Dest.END]

/-- Runtime error taxonomy of the executor (spec section 7). -/
inductive ExecError where
  | UnroutableLabelError
  | NodeExecutionError (cause : String)
  | InvalidInputError
  | GraphRecursionError
  deriving DecidableEq

/-- Modelled from the spec: conditional-edge label resolution (section 4.3).
A label produced by the routing function is looked up in the declared
mapping; an omitted label fails the run with `UnroutableLabelError`, it is
never silently dropped. -/
def resolveLabel (mapping : String → Option Dest) (lbl : String) : Except ExecError (List Dest) :=
  match mapping lbl with
  | some d => .ok [d]
  | none => .error ExecError.UnroutableLabelError

/-- Modelled from the spec: `successors(node, state)` (section 4.3) — the
ordered destination list of a node, resolved against the post-merge state:
the conditional edge set for `user_guide`, the static edge list otherwise. -/
def successors (n : Node) (s : AgentState) : Except ExecError (List Dest) :=
  match n with
  | .user_guide => resolveLabel user_guide_mapping (exists_action s)
  | _ => .ok (edges n)

/-- Evaluate a fallible function over a list, stopping at the first error
(the sequential collection of per-branch results at a barrier). -/
def mapExcept (f : α → Except ε β) : List α → Except ε (List β)
  | [] => .ok []
  | a :: as =>
    match f a with
    | .error e => .error e
    | .ok b =>
      match mapExcept f as with
      | .error e => .error e
      | .ok bs => .ok (b :: bs)

/-- Modelled from the spec: one frontier level (section 4.4, step 2a-2b).
Every sibling's work function is invoked against the same pre-level state;
if any fails the whole level fails with `NodeExecutionError` wrapping the
cause and no partial update is applied; otherwise all updates are merged
into the state in declaration order. -/
def runLevel (nodeFn : Node → AgentState → Except String StateUpdate)
    (frontier : List Node) (s : AgentState) : Except ExecError AgentState :=
  match mapExcept (fun n => nodeFn n s) frontier with
  | .error cause => .error (ExecError.NodeExecutionError cause)
  | .ok updates => .ok (updates.foldl AgentState.merge s)

/-- Keep the first occurrence of each node, preserving order (the union of
successor lists as an ordered, duplicate-free frontier). -/
def dedupFirst : List Node → List Node
  | [] => []
  | n :: rest => n :: (dedupFirst rest).filter (fun m => m ≠ n)

/-- Project a destination to a node; the terminal marker ends the branch. -/
def Dest.asNode : Dest → Option Node
  | .node n => some n
  | .END => none

/-- Modelled from the spec: the next frontier (section 4.4, steps 2c-2d) —
successors of every just-executed node against the post-merge state, with
terminal markers removed, as an ordered union. -/
def nextFrontier (frontier : List Node) (s : AgentState) : Except ExecError (List Node) :=
  match mapExcept (fun n => successors n s) frontier with
  | .error e => .error e
  | .ok succLists => .ok (dedupFirst (succLists.flatten.filterMap Dest.asNode))

/-- Modelled from the spec: the traversal loop (section 4.4, step 2), with
the runtime's recursion limit as fuel.  Returns the final state and the
trace of executed frontier levels. -/
def runFrontier (nodeFn : Node → AgentState → Except String StateUpdate) :
    Nat → List Node → AgentState → Except ExecError (AgentState × List (List Node))
  | _, [], s => .ok (s, [])
  | 0, _ :: _, _ => .error ExecError.GraphRecursionError
  | fuel + 1, n :: rest, s =>
    match runLevel nodeFn (n :: rest) s with
    | .error e => .error e
    | .ok s' =>
      match nextFrontier (n :: rest) s' with
      | .error e => .error e
      | .ok f' =>
        match runFrontier nodeFn fuel f' s' with
        | .error e => .error e
        | .ok (sF, trace) => .ok (sF, (n :: rest) :: trace)

/-- The runtime's default recursion limit. -/
def recursion_limit : Nat := 25

/-- Modelled from the spec: the checkpoint store (section 4.5), a thread-id
keyed association list, most recent save first. -/
def Store := List (String × AgentState)

/-- `load(threadId)`: the last saved state, or the empty state for a
never-seen thread id; never fails. -/
def Store.load (store : Store) (tid : String) : AgentState :=
  match List.find? (fun p => p.1 == tid) store with
  | some p => p.2
  | none => emptyState

/-- `save(threadId, state)`: overwrite the thread's checkpoint; the only
mutation path. -/
def Store.save (store : Store) (tid : String) (s : AgentState) : Store :=
  (tid, s) :: store

/-- Modelled from the spec: `run(threadId, inputUpdate)` (sections 4.4-4.5,
6): load the checkpoint (empty for an unseen thread id), merge the caller's
input update, walk the graph from the entry node `user_guide`
(`graph.set_entry_point`), and on completion persist the final state under
the thread id.  Returns the updated store, the final state and the level
trace. -/
def run (nodeFn : Node → AgentState → Except String StateUpdate)
    (store : Store) (tid : String) (input : StateUpdate) :
    Except ExecError (Store × AgentState × List (List Node)) :=
  let s0 := (store.load tid).merge input
  match runFrontier nodeFn recursion_limit [Node.user_guide] s0 with
  | .error e => .error e
  | .ok (sF, trace) => .ok (store.save tid sF, sF, trace)

/-- The checkpoint store as the caller observes it after `run`: updated on
completion, untouched on failure. -/
def runStore (nodeFn : Node → AgentState → Except String StateUpdate)
    (store : Store) (tid : String) (input : StateUpdate) : Store :=
  match run nodeFn store tid input with
  | .ok (st, _, _) => st
  | .error _ => store

/-- The final state and trace of a `run`, independent of the returned
store. -/
def runResult (nodeFn : Node → AgentState → Except String StateUpdate)
    (store : Store) (tid : String) (input : StateUpdate) :
    Except ExecError (AgentState × List (List Node)) :=
  match run nodeFn store tid input with
  | .ok (_, sF, trace) => .ok (sF, trace)
  | .error e => .error e

/-- The `chat` console entry point of the notebook: an empty or
all-whitespace user input is rejected before the agent is invoked
(`if not user_input.strip(): ... return`, the spec's `InvalidInputError`);
otherwise the input message is submitted as
`{"messages": [{"role": "user", "content": user_input}]}` for the thread. -/
def chat (nodeFn : Node → AgentState → Except String StateUpdate)
    (store : Store) (user_input : String) (thread : String) :
    Except ExecError (Store × AgentState × List (List Node)) :=
  if isBlank user_input then .error ExecError.InvalidInputError
  else run nodeFn store thread { messages := some [Message.mk "user" user_input] }

/-- The checkpoint store as the caller observes it after `chat` (the
notebook's `chat` swallows errors and leaves the session as it was). -/
def chatStore (nodeFn : Node → AgentState → Except String StateUpdate)
    (store : Store) (user_input : String) (thread : String) : Store :=
  match chat nodeFn store user_input thread with
  | .ok (st, _, _) => st
  | .error _ => store

/-- Modelled from the spec (section 5): one frontier level executed under an
arbitrary branch completion order `sched`.  Every sibling's work function
still reads the same pre-level state; the per-branch results are collected
in completion order, and only after all branches complete are the updates
merged — in the declaration order `frontier`, not in completion order. -/
def runLevelSched (nodeFn : Node → AgentState → Except String StateUpdate)
    (frontier sched : List Node) (s : AgentState) : Except ExecError AgentState :=
  match mapExcept (fun n =>
      match nodeFn n s with
      | .error c => .error c
      | .ok u => .ok (n, u)) sched with
  | .error cause => .error (ExecError.NodeExecutionError cause)
  | .ok computed =>
    match mapExcept (fun n =>
        match List.find? (fun p => decide (p.1 = n)) computed with
        | some p => Except.ok p.2
        | none => Except.error "branch did not complete") frontier with
    | .error cause => .error (ExecError.NodeExecutionError cause)
    | .ok updates => .ok (updates.foldl AgentState.merge s)

/-! ## General lemmas about the executor -/

lemma mapExcept_ok_of_forall {α ε β : Type} {f : α → Except ε β} :
    ∀ {l : List α}, (∀ a ∈ l, ∃ b, f a = Except.ok b) →
      ∃ bs, mapExcept f l = Except.ok bs := by
  intro l
  induction l with
  | nil => intro _; exact ⟨[], rfl⟩
  | cons a as ih =>
    intro h
    obtain ⟨b, hb⟩ := h a (List.mem_cons_self a as)
    obtain ⟨bs, hbs⟩ := ih (fun x hx => h x (List.mem_cons_of_mem _ hx))
    exact ⟨b :: bs, by simp [mapExcept, hb, hbs]⟩

lemma mapExcept_forall_ok {α ε β : Type} {f : α → Except ε β} :
    ∀ {l : List α} {bs}, mapExcept f l = Except.ok bs →
      ∀ a ∈ l, ∃ b, f a = Except.ok b := by
  intro l
  induction l with
  | nil => intro bs _ a ha; exact absurd ha (List.not_mem_nil a)
  | cons x xs ih =>
    intro bs h a ha
    cases hfx : f x with
    | error c => simp [mapExcept, hfx] at h
    | ok b =>
      cases hmx : mapExcept f xs with
      | error c => simp [mapExcept, hfx, hmx] at h
      | ok bs' =>
        rcases List.mem_cons.mp ha with rfl | ha'
        · exact ⟨b, hfx⟩
        · exact ih hmx a ha'

lemma mapExcept_error_of_exists {α ε β : Type} {f : α → Except ε β} :
    ∀ {l : List α}, (∃ a ∈ l, ∃ c, f a = Except.error c) →
      ∃ c, mapExcept f l = Except.error c ∧ ∃ a ∈ l, f a = Except.error c := by
  intro l
  induction l with
  | nil => rintro ⟨a, ha, _⟩; exact absurd ha (List.not_mem_nil a)
  | cons x xs ih =>
    rintro ⟨a, ha, c, hc⟩
    cases hfx : f x with
    | error cx =>
      exact ⟨cx, by simp [mapExcept, hfx], x, List.mem_cons_self x xs, hfx⟩
    | ok b =>
      rcases List.mem_cons.mp ha with rfl | ha'
      · rw [hfx] at hc; exact absurd hc (by simp)
      · obtain ⟨c', hmx, a', ha'', hfa'⟩ := ih ⟨a, ha', c, hc⟩
        exact ⟨c', by simp [mapExcept, hfx, hmx], a', List.mem_cons_of_mem _ ha'', hfa'⟩

lemma exists_action_cases (s : AgentState) :
    exists_action s = "plan" ∨ exists_action s = "refine" ∨ exists_action s = "assistant" := by
  by_cases h1 : containsPattern (s.task.getD "") "Plan:" = true
  · exact Or.inl (by simp [exists_action, h1])
  · by_cases h2 : containsPattern (s.task.getD "") "Refine:" = true
    · exact Or.inr (Or.inl (by simp [exists_action, h1, h2]))
    · exact Or.inr (Or.inr (by simp [exists_action, h1, h2]))

lemma successors_ok (n : Node) (s : AgentState) : ∃ ds, successors n s = Except.ok ds := by
  cases n
  case user_guide =>
    rcases exists_action_cases s with h | h | h
    · exact ⟨[Dest.node Node.destination_planner],
        by simp [successors, h, resolveLabel, user_guide_mapping]⟩
    · exact ⟨[Dest.node Node.itinerary_researcher],
        by simp [successors, h, resolveLabel, user_guide_mapping]⟩
    · exact ⟨[Dest.END], by simp [successors, h, resolveLabel, user_guide_mapping]⟩
  all_goals exact ⟨_, rfl⟩

lemma nextFrontier_ok (frontier : List Node) (s : AgentState) :
    ∃ f', nextFrontier frontier s = Except.ok f' := by
  obtain ⟨bss, h⟩ :=
    mapExcept_ok_of_forall (f := fun n => successors n s) (l := frontier)
      (fun n _ => successors_ok n s)
  exact ⟨dedupFirst (bss.flatten.filterMap Dest.asNode), by simp [nextFrontier, h]⟩

lemma runLevel_error_kind {nodeFn : Node → AgentState → Except String StateUpdate}
    {frontier : List Node} {s : AgentState} {e : ExecError}
    (h : runLevel nodeFn frontier s = Except.error e) :
    ∃ c, e = ExecError.NodeExecutionError c := by
  unfold runLevel at h
  cases hm : mapExcept (fun n => nodeFn n s) frontier with
  | error c => rw [hm] at h; exact ⟨c, by injection h; simp_all⟩
  | ok us => rw [hm] at h; exact absurd h (by simp)

lemma runFrontier_error_kind (nodeFn : Node → AgentState → Except String StateUpdate) :
    ∀ (fuel : Nat) (frontier : List Node) (s : AgentState) (e : ExecError),
      runFrontier nodeFn fuel frontier s = Except.error e →
      e = ExecError.GraphRecursionError ∨ ∃ c, e = ExecError.NodeExecutionError c := by
  intro fuel
  induction fuel with
  | zero =>
    intro frontier s e h
    cases frontier with
    | nil => exact absurd h (by simp [runFrontier])
    | cons n rest =>
      left
      have : ExecError.GraphRecursionError = e := by
        simpa [runFrontier] using h
      exact this.symm
  | succ fuel ih =>
    intro frontier s e h
    cases frontier with
    | nil => exact absurd h (by simp [runFrontier])
    | cons n rest =>
      rw [runFrontier] at h
      cases hrl : runLevel nodeFn (n :: rest) s with
      | error e' =>
        simp only [hrl] at h
        obtain ⟨c, hc⟩ := runLevel_error_kind hrl
        right
        exact ⟨c, by injection h with h'; rw [← h', hc]⟩
      | ok s' =>
        simp only [hrl] at h
        obtain ⟨f', hf⟩ := nextFrontier_ok (n :: rest) s'
        simp only [hf] at h
        cases hrec : runFrontier nodeFn fuel f' s' with
        | error e' =>
          simp only [hrec] at h
          injection h with h'
          rw [← h']
          exact ih f' s' e' hrec
        | ok p =>
          obtain ⟨sF, trace⟩ := p
          simp [hrec] at h

/-! ## Claim theorems -/

/-- C1: the merge applies each field's declared policy to every field
present in a partial update: `messages` and `search` (the `operator.add`
fields) concatenate the new values after the existing sequence, preserving
order, while `task`, `basic_plan` and `research` are overwritten.  The
statement is universally quantified over the current state and the update,
and `AgentState.merge` is the single fixed merge function the executor uses
for every merge, so the policy is the same for every merge of any
traversal. -/
theorem merge_policies (s : AgentState) (u : StateUpdate) :
    (∀ ms, u.messages = some ms → (s.merge u).messages = s.messages ++ ms) ∧
    (∀ se, u.search = some se → (s.merge u).search = s.search ++ se) ∧
    (∀ t, u.task = some t → (s.merge u).task = some t) ∧
    (∀ bp, u.basic_plan = some bp → (s.merge u).basic_plan = some bp) ∧
    (∀ r, u.research = some r → (s.merge u).research = some r) := by
  refine ⟨?_, ?_, ?_, ?_, ?_⟩ <;> intro x hx <;> simp [AgentState.merge, hx]

/-- C1 witness: the merge policies evaluated on a concrete state and a
concrete full update. -/
theorem merge_policies_witness :
    (AgentState.merge ⟨[⟨"user", "hi"⟩], some "T", some "B", [["s"]], some ["r"]⟩
      ⟨some [⟨"assistant", "yo"⟩], some "T2", some "B2", some [["s2"]], some ["r2"]⟩).messages =
        [⟨"user", "hi"⟩, ⟨"assistant", "yo"⟩] ∧
    (AgentState.merge ⟨[⟨"user", "hi"⟩], some "T", some "B", [["s"]], some ["r"]⟩
      ⟨some [⟨"assistant", "yo"⟩], some "T2", some "B2", some [["s2"]], some ["r2"]⟩).search =
        [["s"], ["s2"]] ∧
    (AgentState.merge ⟨[⟨"user", "hi"⟩], some "T", some "B", [["s"]], some ["r"]⟩
      ⟨some [⟨"assistant", "yo"⟩], some "T2", some "B2", some [["s2"]], some ["r2"]⟩).task =
        some "T2" ∧
    (AgentState.merge ⟨[⟨"user", "hi"⟩], some "T", some "B", [["s"]], some ["r"]⟩
      ⟨some [⟨"assistant", "yo"⟩], some "T2", some "B2", some [["s2"]], some ["r2"]⟩).basic_plan =
        some "B2" ∧
    (AgentState.merge ⟨[⟨"user", "hi"⟩], some "T", some "B", [["s"]], some ["r"]⟩
      ⟨some [⟨"assistant", "yo"⟩], some "T2", some "B2", some [["s2"]], some ["r2"]⟩).research =
        some ["r2"] := by
  refine ⟨?_, ?_, ?_, ?_, ?_⟩
  · simpa using (merge_policies _ _).1 _ rfl
  · simpa using (merge_policies _ _).2.1 _ rfl
  · simpa using (merge_policies _ _).2.2.1 _ rfl
  · simpa using (merge_policies _ _).2.2.2.1 _ rfl
  · simpa using (merge_policies _ _).2.2.2.2 _ rfl

/-- C2: `exists_action` is total and returns exactly one of the three labels
`"plan"`, `"refine"`, `"assistant"` for every state, including states with
an absent `task` key; the conditional-edge mapping installed for
`user_guide` has an entry for each of these labels (plan →
destination_planner, refine → itinerary_researcher, assistant → END), so
`successors` for `user_guide` always resolves and no run of this graph can
fail with `UnroutableLabelError` — whereas a label with no mapping entry
makes the resolver fail the run with `UnroutableLabelError` rather than
silently dropping the label. -/
theorem routing_total_and_covered :
    (∀ s : AgentState,
      exists_action s = "plan" ∨ exists_action s = "refine" ∨ exists_action s = "assistant") ∧
    user_guide_mapping "plan" = some (Dest.node Node.destination_planner) ∧
    user_guide_mapping "refine" = some (Dest.node Node.itinerary_researcher) ∧
    user_guide_mapping "assistant" = some Dest.END ∧
    (∀ s : AgentState, ∃ ds, successors Node.user_guide s = Except.ok ds) ∧
    (∀ (nodeFn : Node → AgentState → Except String StateUpdate)
        (store : Store) (tid : String) (input : StateUpdate),
      run nodeFn store tid input ≠ Except.error ExecError.UnroutableLabelError) ∧
    (∀ (m : String → Option Dest) (lbl : String), m lbl = none →
      resolveLabel m lbl = Except.error ExecError.UnroutableLabelError) := by
  refine ⟨exists_action_cases, rfl, rfl, rfl, fun s => successors_ok Node.user_guide s,
    ?_, ?_⟩
  · intro nodeFn store tid input h
    cases hrf : runFrontier nodeFn recursion_limit [Node.user_guide]
        ((Store.load store tid).merge input) with
    | error e =>
      have hrun : run nodeFn store tid input = Except.error e := by
        simp [run, hrf]
      rw [hrun] at h
      injection h with h'
      rcases runFrontier_error_kind nodeFn _ _ _ _ hrf with h'' | ⟨c, h''⟩ <;> simp_all
    | ok p =>
      obtain ⟨sF, trace⟩ := p
      have hrun : run nodeFn store tid input =
          Except.ok (Store.save store tid sF, sF, trace) := by
        simp [run, hrf]
      rw [hrun] at h
      exact absurd h (by simp)
  · intro m lbl h
    simp [resolveLabel, h]

/-- C2 witness: the resolver really fails with `UnroutableLabelError` on a
mapping with no entry for the produced label. -/
theorem routing_total_and_covered_witness :
    resolveLabel (fun _ => none) "plan" = Except.error ExecError.UnroutableLabelError :=
  routing_total_and_covered.2.2.2.2.2.2 (fun _ => none) "plan" rfl

/-- C3: for the fan-out level of the plan path — the two sibling branches
`transport_advisor` and `accommodation_advisor`, each appending one item to
the `search` field — any two completion orders of the branches produce the
same merged state, and the final ordering of the appended items is the
static edge-declaration order of the fan-out (`add_edge` declared
destination_planner → transport_advisor before destination_planner →
accommodation_advisor), so transport_advisor's contribution comes before
accommodation_advisor's, independent of completion order. -/
theorem fanout_append_deterministic (o : Oracle) (s : AgentState) (bp : String)
    (sched₁ sched₂ : List Node)
    (hbp : s.basic_plan = some bp)
    (h₁ : sched₁ = [Node.transport_advisor, Node.accommodation_advisor] ∨
      sched₁ = [Node.accommodation_advisor, Node.transport_advisor])
    (h₂ : sched₂ = [Node.transport_advisor, Node.accommodation_advisor] ∨
      sched₂ = [Node.accommodation_advisor, Node.transport_advisor]) :
    edges Node.destination_planner =
      [Dest.node Node.transport_advisor, Dest.node Node.accommodation_advisor] ∧
    runLevelSched (graphNodeFn o) [Node.transport_advisor, Node.accommodation_advisor]
        sched₁ s =
      runLevelSched (graphNodeFn o) [Node.transport_advisor, Node.accommodation_advisor]
        sched₂ s ∧
    runLevelSched (graphNodeFn o) [Node.transport_advisor, Node.accommodation_advisor]
        sched₁ s =
      Except.ok ⟨s.messages, s.task, s.basic_plan,
        s.search ++ [(o.transportQueries bp).map o.tavilyAnswer,
          (o.accommodationQueries bp).map o.tavilyAnswer], s.research⟩ := by
  have key : ∀ sched, sched = [Node.transport_advisor, Node.accommodation_advisor] ∨
      sched = [Node.accommodation_advisor, Node.transport_advisor] →
      runLevelSched (graphNodeFn o) [Node.transport_advisor, Node.accommodation_advisor]
          sched s =
        Except.ok ⟨s.messages, s.task, s.basic_plan,
          s.search ++ [(o.transportQueries bp).map o.tavilyAnswer,
            (o.accommodationQueries bp).map o.tavilyAnswer], s.research⟩ := by
    rintro sched (rfl | rfl) <;>
      simp [runLevelSched, mapExcept, graphNodeFn, transport_advisor_node,
        accommodation_advisor_node, hbp, AgentState.merge, List.find?]
  exact ⟨rfl, (key sched₁ h₁).trans (key sched₂ h₂).symm, key sched₁ h₁⟩

/-- C3 witness: the fan-out level evaluated under both completion orders on
a concrete oracle and state. -/
theorem fanout_append_deterministic_witness :
    edges Node.destination_planner =
      [Dest.node Node.transport_advisor, Dest.node Node.accommodation_advisor] ∧
    runLevelSched
        (graphNodeFn
          { userGuideReply := fun _ => ⟨"assistant", "hello"⟩
            plannerReply := fun _ => "plan"
            transportQueries := fun _ => ["tq"]
            accommodationQueries := fun _ => ["aq"]
            itineraryReply := fun _ _ => ⟨"assistant", "it"⟩
            researcherQueries := fun _ => ["rq"]
            optimizerReply := fun _ _ => ⟨"assistant", "opt"⟩
            tavilyAnswer := fun q => "ans-" ++ q })
        [Node.transport_advisor, Node.accommodation_advisor]
        [Node.transport_advisor, Node.accommodation_advisor]
        ⟨[], none, some "B", [], none⟩ =
      runLevelSched
        (graphNodeFn
          { userGuideReply := fun _ => ⟨"assistant", "hello"⟩
            plannerReply := fun _ => "plan"
            transportQueries := fun _ => ["tq"]
            accommodationQueries := fun _ => ["aq"]
            itineraryReply := fun _ _ => ⟨"assistant", "it"⟩
            researcherQueries := fun _ => ["rq"]
            optimizerReply := fun _ _ => ⟨"assistant", "opt"⟩
            tavilyAnswer := fun q => "ans-" ++ q })
        [Node.transport_advisor, Node.accommodation_advisor]
        [Node.accommodation_advisor, Node.transport_advisor]
        ⟨[], none, some "B", [], none⟩ ∧
    runLevelSched
        (graphNodeFn
          { userGuideReply := fun _ => ⟨"assistant", "hello"⟩
            plannerReply := fun _ => "plan"
            transportQueries := fun _ => ["tq"]
            accommodationQueries := fun _ => ["aq"]
            itineraryReply := fun _ _ => ⟨"assistant", "it"⟩
            researcherQueries := fun _ => ["rq"]
            optimizerReply := fun _ _ => ⟨"assistant", "opt"⟩
            tavilyAnswer := fun q => "ans-" ++ q })
        [Node.transport_advisor, Node.accommodation_advisor]
        [Node.transport_advisor, Node.accommodation_advisor]
        ⟨[], none, some "B", [], none⟩ =
      Except.ok ⟨[], none, some "B", [["ans-tq"], ["ans-aq"]], none⟩ := by
  simpa using
    fanout_append_deterministic
      { userGuideReply := fun _ => ⟨"assistant", "hello"⟩
        plannerReply := fun _ => "plan"
        transportQueries := fun _ => ["tq"]
        accommodationQueries := fun _ => ["aq"]
        itineraryReply := fun _ _ => ⟨"assistant", "it"⟩
        researcherQueries := fun _ => ["rq"]
        optimizerReply := fun _ _ => ⟨"assistant", "opt"⟩
        tavilyAnswer := fun q => "ans-" ++ q }
      ⟨[], none, some "B", [], none⟩ "B"
      [Node.transport_advisor, Node.accommodation_advisor]
      [Node.accommodation_advisor, Node.transport_advisor]
      rfl (Or.inl rfl) (Or.inr rfl)

/-- C4: a failing work function aborts the whole traversal with
`NodeExecutionError` wrapping the cause; a level is atomic — it produces a
merged state only when every sibling's work function succeeded, so no
partial update from a completed sibling of a failed level is ever applied;
and on any failed run the checkpoint store is untouched, so a retry on the
same thread id resumes from the last successful checkpoint. -/
theorem failure_atomic_checkpoint_untouched :
    (∀ (nodeFn : Node → AgentState → Except String StateUpdate)
        (frontier : List Node) (s : AgentState),
      (∃ n ∈ frontier, ∃ c, nodeFn n s = Except.error c) →
      ∃ c, runLevel nodeFn frontier s = Except.error (ExecError.NodeExecutionError c) ∧
        ∃ n ∈ frontier, nodeFn n s = Except.error c) ∧
    (∀ (nodeFn : Node → AgentState → Except String StateUpdate)
        (frontier : List Node) (s s' : AgentState),
      runLevel nodeFn frontier s = Except.ok s' →
      ∀ n ∈ frontier, ∃ u, nodeFn n s = Except.ok u) ∧
    (∀ (nodeFn : Node → AgentState → Except String StateUpdate)
        (store : Store) (tid : String) (input : StateUpdate) (e : ExecError),
      run nodeFn store tid input = Except.error e →
      runStore nodeFn store tid input = store ∧
      Store.load (runStore nodeFn store tid input) tid = Store.load store tid) := by
  refine ⟨?_, ?_, ?_⟩
  · intro nodeFn frontier s h
    obtain ⟨c, hm, n, hn, hfa⟩ :=
      mapExcept_error_of_exists (f := fun n => nodeFn n s) (l := frontier) h
    exact ⟨c, by simp [runLevel, hm], n, hn, hfa⟩
  · intro nodeFn frontier s s' h n hn
    cases hm : mapExcept (fun n => nodeFn n s) frontier with
    | error c => simp [runLevel, hm] at h
    | ok us => exact mapExcept_forall_ok hm n hn
  · intro nodeFn store tid input e h
    have : runStore nodeFn store tid input = store := by
      simp [runStore, h]
    exact ⟨this, by rw [this]⟩

/-- C4 witness: a run in which the entry node's work function fails leaves
the (empty) checkpoint store untouched. -/
theorem failure_atomic_checkpoint_untouched_witness :
    runStore (fun _ _ => Except.error "boom") [] "t" {} = [] ∧
    Store.load (runStore (fun _ _ => Except.error "boom") [] "t" {}) "t" =
      Store.load [] "t" :=
  failure_atomic_checkpoint_untouched.2.2 (fun _ _ => Except.error "boom") [] "t" {}
    (ExecError.NodeExecutionError "boom") rfl

/-- C5: the checkpoint store: `load` of a never-seen thread id is the empty
state; `save` overwrites, and `load` returns the last state saved for the
thread id; a completed run persists its final state under the thread id
(save is the only mutation `run` performs); and `run` depends on the prior
store only through the state checkpointed for its thread id, so a new
invocation on the same thread id resumes from the prior merged state rather
than starting empty. -/
theorem checkpoint_semantics :
    (∀ tid : String, Store.load [] tid = emptyState) ∧
    (∀ (store : Store) (tid : String),
      List.find? (fun p => p.1 == tid) store = none → Store.load store tid = emptyState) ∧
    (∀ (store : Store) (tid : String) (s : AgentState),
      Store.load (Store.save store tid s) tid = s) ∧
    (∀ (nodeFn : Node → AgentState → Except String StateUpdate)
        (store : Store) (tid : String) (input : StateUpdate)
        (st' : Store) (sF : AgentState) (trace : List (List Node)),
      run nodeFn store tid input = Except.ok (st', sF, trace) →
      st' = Store.save store tid sF ∧ Store.load st' tid = sF) ∧
    (∀ (nodeFn : Node → AgentState → Except String StateUpdate)
        (store₁ store₂ : Store) (tid : String) (input : StateUpdate),
      Store.load store₁ tid = Store.load store₂ tid →
      runResult nodeFn store₁ tid input = runResult nodeFn store₂ tid input) := by
  refine ⟨fun tid => rfl, ?_, ?_, ?_, ?_⟩
  · intro store tid h
    simp [Store.load, h]
  · intro store tid s
    simp [Store.load, Store.save]
  · intro nodeFn store tid input st' sF trace h
    cases hrf : runFrontier nodeFn recursion_limit [Node.user_guide]
        ((Store.load store tid).merge input) with
    | error e => simp [run, hrf] at h
    | ok p =>
      obtain ⟨sF', trace'⟩ := p
      have hrun : run nodeFn store tid input =
          Except.ok (Store.save store tid sF', sF', trace') := by
        simp [run, hrf]
      rw [hrun] at h
      simp only [Except.ok.injEq, Prod.mk.injEq] at h
      obtain ⟨h1, h2, h3⟩ := h
      subst h1
      subst h2
      exact ⟨rfl, by simp [Store.load, Store.save]⟩
  · intro nodeFn store₁ store₂ tid input h
    cases hrf : runFrontier nodeFn recursion_limit [Node.user_guide]
        ((store₂.load tid).merge input) with
    | error e => simp [runResult, run, h, hrf]
    | ok p =>
      obtain ⟨sF, trace⟩ := p
      simp [runResult, run, h, hrf]

/-- C5 witness: the checkpoint-store operations evaluated on concrete
stores, thread ids and a concrete completed run. -/
theorem checkpoint_semantics_witness :
    Store.load [("a", emptyState)] "b" = emptyState ∧
    Store.load (Store.save [] "t" emptyState) "t" = emptyState ∧
    ([("t", emptyState)] : Store) = Store.save [] "t" emptyState ∧
    Store.load [("t", emptyState)] "t" = emptyState ∧
    runResult (fun _ _ => Except.ok {}) [] "t" {} =
      runResult (fun _ _ => Except.ok {}) [("x", emptyState)] "t" {} := by
  refine ⟨checkpoint_semantics.2.1 [("a", emptyState)] "b" (by rfl),
    checkpoint_semantics.2.2.1 [] "t" emptyState, ?_, ?_,
    checkpoint_semantics.2.2.2.2 (fun _ _ => Except.ok {}) [] [("x", emptyState)] "t" {}
      (by rfl)⟩
  · exact (checkpoint_semantics.2.2.2.1 (fun _ _ => Except.ok {}) [] "t" {}
      [("t", emptyState)] emptyState [[Node.user_guide]] (by rfl)).1
  · exact (checkpoint_semantics.2.2.2.1 (fun _ _ => Except.ok {}) [] "t" {}
      [("t", emptyState)] emptyState [[Node.user_guide]] (by rfl)).2

/-- C6: an input whose top-level user message is empty or all-whitespace is
rejected by the console guard with `InvalidInputError` before the agent is
invoked, leaving the checkpoint store for the thread untouched. -/
theorem blank_input_rejected (nodeFn : Node → AgentState → Except String StateUpdate)
    (store : Store) (user_input thread : String)
    (h : isBlank user_input = true) :
    chat nodeFn store user_input thread = Except.error ExecError.InvalidInputError ∧
    chatStore nodeFn store user_input thread = store := by
  constructor <;> simp [chat, chatStore, h]

/-- C6 witness: a whitespace-only input on a concrete store is rejected and
the store is unchanged. -/
theorem blank_input_rejected_witness :
    chat (fun _ _ => Except.error "x") [("t", emptyState)] "  " "t" =
      Except.error ExecError.InvalidInputError ∧
    chatStore (fun _ _ => Except.error "x") [("t", emptyState)] "  " "t" =
      [("t", emptyState)] :=
  blank_input_rejected (fun _ _ => Except.error "x") [("t", emptyState)] "  " "t" (by rfl)

/-- C7: when the entry node's model reply contains `"Plan:"` (the reply `R`
becomes the `task`), the traversal routes to `destination_planner`, fans out
to `transport_advisor` and `accommodation_advisor`, joins at
`itinerary_planner`, and reaches the terminal marker — the executed levels
are exactly those four; the final checkpointed state has `basic_plan` set by
replace to the planner reply and `search` extended by exactly 2 appended
entries, transport_advisor's before accommodation_advisor's, the declared
edge order. -/
theorem plan_scenario (o : Oracle) (store : Store) (tid : String) (input : StateUpdate)
    (s0 : AgentState) (R bp : String) (tS aS : List String)
    (hs0 : s0 = (Store.load store tid).merge input)
    (hR : R = (o.userGuideReply s0.messages).content)
    (hbp : bp = o.plannerReply R)
    (htS : tS = (o.transportQueries bp).map o.tavilyAnswer)
    (haS : aS = (o.accommodationQueries bp).map o.tavilyAnswer)
    (hplan : containsPattern R "Plan:" = true) :
    run (graphNodeFn o) store tid input =
      Except.ok
        (Store.save store tid
          ⟨s0.messages ++ [o.itineraryReply bp (s0.search ++ [tS, aS])],
            some R, some bp, s0.search ++ [tS, aS], s0.research⟩,
          ⟨s0.messages ++ [o.itineraryReply bp (s0.search ++ [tS, aS])],
            some R, some bp, s0.search ++ [tS, aS], s0.research⟩,
          [[Node.user_guide], [Node.destination_planner],
            [Node.transport_advisor, Node.accommodation_advisor],
            [Node.itinerary_planner]]) ∧
    (s0.search ++ [tS, aS]).length = s0.search.length + 2 := by
  subst haS
  subst htS
  subst hbp
  subst hR
  subst hs0
  have hplan' := hplan
  simp only [AgentState.merge] at hplan'
  constructor
  · simp [run, recursion_limit, runFrontier, runLevel, mapExcept, graphNodeFn,
      user_guide_node, destination_planner_node, transport_advisor_node,
      accommodation_advisor_node, itinerary_planner_node, hplan, hplan',
      AgentState.merge, nextFrontier, successors, exists_action, resolveLabel,
      user_guide_mapping, edges, dedupFirst, Dest.asNode]
  · simp

/-- C7 witness: the plan scenario evaluated end to end on a concrete oracle
whose entry reply is `"Plan: Paris, 5 days"`, from a fresh thread. -/
theorem plan_scenario_witness :
    run (graphNodeFn
        { userGuideReply := fun _ => ⟨"assistant", "Plan: Paris, 5 days"⟩
          plannerReply := fun _ => "basic plan"
          transportQueries := fun _ => ["tq1"]
          accommodationQueries := fun _ => ["aq1"]
          itineraryReply := fun _ _ => ⟨"assistant", "final itinerary"⟩
          researcherQueries := fun _ => ["rq"]
          optimizerReply := fun _ _ => ⟨"assistant", "opt"⟩
          tavilyAnswer := fun q => "ans-" ++ q })
      [] "t1" { messages := some [⟨"user", "hi"⟩] } =
    Except.ok
      ([("t1", ⟨[⟨"user", "hi"⟩, ⟨"assistant", "final itinerary"⟩],
          some "Plan: Paris, 5 days", some "basic plan", [["ans-tq1"], ["ans-aq1"]], none⟩)],
        ⟨[⟨"user", "hi"⟩, ⟨"assistant", "final itinerary"⟩],
          some "Plan: Paris, 5 days", some "basic plan", [["ans-tq1"], ["ans-aq1"]], none⟩,
        [[Node.user_guide], [Node.destination_planner],
          [Node.transport_advisor, Node.accommodation_advisor],
          [Node.itinerary_planner]]) ∧
    ([["ans-tq1"], ["ans-aq1"]] : List (List String)).length = 2 := by
  simpa using
    plan_scenario
      { userGuideReply := fun _ => ⟨"assistant", "Plan: Paris, 5 days"⟩
        plannerReply := fun _ => "basic plan"
        transportQueries := fun _ => ["tq1"]
        accommodationQueries := fun _ => ["aq1"]
        itineraryReply := fun _ _ => ⟨"assistant", "final itinerary"⟩
        researcherQueries := fun _ => ["rq"]
        optimizerReply := fun _ _ => ⟨"assistant", "opt"⟩
        tavilyAnswer := fun q => "ans-" ++ q }
      [] "t1" { messages := some [⟨"user", "hi"⟩] }
      ⟨[⟨"user", "hi"⟩], none, none, [], none⟩
      "Plan: Paris, 5 days" "basic plan" ["ans-tq1"] ["ans-aq1"]
      rfl rfl rfl rfl rfl (by rfl)

/-- C8: when the entry node's model reply contains neither `"Plan:"` nor
`"Refine:"` (a plain chat reply, no `task` written) and the persisted
`task` also triggers neither pattern, the routing function yields its
default label `"assistant"`, which maps to the terminal marker: the
traversal ends after executing exactly the one entry node, and the
checkpointed `messages` gains exactly one appended entry (the reply) beyond
the caller's input message, all other fields unchanged. -/
theorem assistant_scenario (o : Oracle) (store : Store) (tid : String) (input : StateUpdate)
    (s0 : AgentState) (reply : Message)
    (hs0 : s0 = (Store.load store tid).merge input)
    (hreply : reply = o.userGuideReply s0.messages)
    (hp : containsPattern reply.content "Plan:" = false)
    (hr : containsPattern reply.content "Refine:" = false)
    (ht1 : containsPattern (s0.task.getD "") "Plan:" = false)
    (ht2 : containsPattern (s0.task.getD "") "Refine:" = false) :
    exists_action (s0.merge { messages := some [reply] }) = "assistant" ∧
    run (graphNodeFn o) store tid input =
      Except.ok
        (Store.save store tid
          ⟨s0.messages ++ [reply], s0.task, s0.basic_plan, s0.search, s0.research⟩,
        ⟨s0.messages ++ [reply], s0.task, s0.basic_plan, s0.search, s0.research⟩,
        [[Node.user_guide]]) := by
  subst hreply
  subst hs0
  simp only [AgentState.merge] at ht1 ht2 hp hr ⊢
  constructor
  · simp [exists_action, ht1, ht2]
  · simp [run, recursion_limit, runFrontier, runLevel, mapExcept, graphNodeFn,
      user_guide_node, hp, hr, ht1, ht2, AgentState.merge, nextFrontier, successors,
      exists_action, resolveLabel, user_guide_mapping, edges, dedupFirst, Dest.asNode]

/-- C8 witness: a plain chat turn on a fresh thread executes one node and
appends exactly the reply to the conversation. -/
theorem assistant_scenario_witness :
    exists_action
      (AgentState.merge ⟨[⟨"user", "hi"⟩], none, none, [], none⟩
        { messages := some [⟨"assistant", "hello"⟩] }) = "assistant" ∧
    run (graphNodeFn
        { userGuideReply := fun _ => ⟨"assistant", "hello"⟩
          plannerReply := fun _ => "basic plan"
          transportQueries := fun _ => ["tq1"]
          accommodationQueries := fun _ => ["aq1"]
          itineraryReply := fun _ _ => ⟨"assistant", "it"⟩
          researcherQueries := fun _ => ["rq"]
          optimizerReply := fun _ _ => ⟨"assistant", "opt"⟩
          tavilyAnswer := fun q => "ans-" ++ q })
      [] "t1" { messages := some [⟨"user", "hi"⟩] } =
    Except.ok
      ([("t1", ⟨[⟨"user", "hi"⟩, ⟨"assistant", "hello"⟩], none, none, [], none⟩)],
        ⟨[⟨"user", "hi"⟩, ⟨"assistant", "hello"⟩], none, none, [], none⟩,
        [[Node.user_guide]]) := by
  simpa using
    assistant_scenario
      { userGuideReply := fun _ => ⟨"assistant", "hello"⟩
        plannerReply := fun _ => "basic plan"
        transportQueries := fun _ => ["tq1"]
        accommodationQueries := fun _ => ["aq1"]
        itineraryReply := fun _ _ => ⟨"assistant", "it"⟩
        researcherQueries := fun _ => ["rq"]
        optimizerReply := fun _ _ => ⟨"assistant", "opt"⟩
        tavilyAnswer := fun q => "ans-" ++ q }
      [] "t1" { messages := some [⟨"user", "hi"⟩] }
      ⟨[⟨"user", "hi"⟩], none, none, [], none⟩ ⟨"assistant", "hello"⟩
      rfl rfl (by rfl) (by rfl) (by rfl) (by rfl)

/-- C9: when the model reply inside `user_guide_node` contains `"Plan:"` or
`"Refine:"`, the returned partial update carries only the `task` field —
every other field, `messages` included, is absent — so merging that update
leaves the `messages` field exactly as it was: the structured reply is
never appended to the conversation history. -/
theorem structured_reply_only_task (o : Oracle) (s : AgentState)
    (h : containsPattern (o.userGuideReply s.messages).content "Plan:" = true ∨
      containsPattern (o.userGuideReply s.messages).content "Refine:" = true) :
    user_guide_node o s =
      Except.ok ⟨none, some (o.userGuideReply s.messages).content, none, none, none⟩ ∧
    (s.merge ⟨none, some (o.userGuideReply s.messages).content, none, none, none⟩).messages =
      s.messages := by
  rcases h with h | h <;>
    exact ⟨by simp [user_guide_node, h], by simp [AgentState.merge]⟩

/-- C9 witness: a structured `"Plan:"` reply produces a task-only update and
the conversation history is unchanged by its merge. -/
theorem structured_reply_only_task_witness :
    user_guide_node
      { userGuideReply := fun _ => ⟨"assistant", "Plan: X"⟩
        plannerReply := fun _ => "p"
        transportQueries := fun _ => []
        accommodationQueries := fun _ => []
        itineraryReply := fun _ _ => ⟨"assistant", "it"⟩
        researcherQueries := fun _ => []
        optimizerReply := fun _ _ => ⟨"assistant", "opt"⟩
        tavilyAnswer := fun q => q }
      ⟨[⟨"user", "hi"⟩], none, none, [], none⟩ =
      Except.ok ⟨none, some "Plan: X", none, none, none⟩ ∧
    (AgentState.merge ⟨[⟨"user", "hi"⟩], none, none, [], none⟩
        ⟨none, some "Plan: X", none, none, none⟩).messages = [⟨"user", "hi"⟩] := by
  simpa using
    structured_reply_only_task
      { userGuideReply := fun _ => ⟨"assistant", "Plan: X"⟩
        plannerReply := fun _ => "p"
        transportQueries := fun _ => []
        accommodationQueries := fun _ => []
        itineraryReply := fun _ _ => ⟨"assistant", "it"⟩
        researcherQueries := fun _ => []
        optimizerReply := fun _ _ => ⟨"assistant", "opt"⟩
        tavilyAnswer := fun q => q }
      ⟨[⟨"user", "hi"⟩], none, none, [], none⟩ (Or.inl (by rfl))

/-- C10: no node of the graph ever clears or empties the `task` field — a
successful node update either omits `task` or sets it to a non-empty string
containing `"Plan:"` or `"Refine:"`; merging an update that omits `task`
preserves the persisted `task` and hence the routing decision; and in a
later traversal whose entry reply is a plain chat message (no pattern), the
routing is evaluated against the `task` persisted by the earlier traversal:
with `"Plan:"` still stored in the checkpoint, the run takes the full plan
path even though the current reply asked for no plan. -/
theorem task_never_cleared_routing_sticky :
    (∀ (o : Oracle) (n : Node) (s : AgentState) (u : StateUpdate),
      graphNodeFn o n s = Except.ok u →
      u.task = none ∨ ∃ t, u.task = some t ∧ t ≠ "" ∧
        (containsPattern t "Plan:" = true ∨ containsPattern t "Refine:" = true)) ∧
    (∀ (s : AgentState) (u : StateUpdate), u.task = none →
      (s.merge u).task = s.task ∧ exists_action (s.merge u) = exists_action s) ∧
    (∀ (o : Oracle) (store : Store) (tid : String) (input : StateUpdate)
        (s0 : AgentState) (t bp : String) (tS aS : List String) (reply : Message),
      s0 = (Store.load store tid).merge input →
      reply = o.userGuideReply s0.messages →
      bp = o.plannerReply t →
      tS = (o.transportQueries bp).map o.tavilyAnswer →
      aS = (o.accommodationQueries bp).map o.tavilyAnswer →
      s0.task = some t →
      containsPattern t "Plan:" = true →
      containsPattern reply.content "Plan:" = false →
      containsPattern reply.content "Refine:" = false →
      run (graphNodeFn o) store tid input =
        Except.ok
          (Store.save store tid
            ⟨s0.messages ++ [reply] ++ [o.itineraryReply bp (s0.search ++ [tS, aS])],
              some t, some bp, s0.search ++ [tS, aS], s0.research⟩,
            ⟨s0.messages ++ [reply] ++ [o.itineraryReply bp (s0.search ++ [tS, aS])],
              some t, some bp, s0.search ++ [tS, aS], s0.research⟩,
            [[Node.user_guide], [Node.destination_planner],
              [Node.transport_advisor, Node.accommodation_advisor],
              [Node.itinerary_planner]])) := by
  refine ⟨?_, ?_, ?_⟩
  · intro o n s u h
    cases n with
    | user_guide =>
      simp only [graphNodeFn, user_guide_node] at h
      by_cases hc : (containsPattern (o.userGuideReply s.messages).content "Plan:" ||
          containsPattern (o.userGuideReply s.messages).content "Refine:") = true
      · right
        simp only [hc, if_true, Except.ok.injEq] at h
        refine ⟨(o.userGuideReply s.messages).content, by rw [← h], ?_,
          Bool.or_eq_true _ _ |>.mp hc⟩
        intro he
        rcases Bool.or_eq_true _ _ |>.mp hc with h' | h' <;> rw [he] at h' <;>
          exact absurd h' (by decide)
      · left
        simp only [hc, if_false, Bool.not_eq_true] at h
        rw [Bool.not_eq_true] at hc
        simp only [hc, Bool.false_eq_true, if_false, Except.ok.injEq] at h
        rw [← h]
    | destination_planner =>
      left
      cases hst : s.task <;> simp [graphNodeFn, destination_planner_node, hst] at h <;>
        simp [← h]
    | transport_advisor =>
      left
      cases hbp : s.basic_plan <;> simp [graphNodeFn, transport_advisor_node, hbp] at h <;>
        simp [← h]
    | accommodation_advisor =>
      left
      cases hbp : s.basic_plan <;>
        simp [graphNodeFn, accommodation_advisor_node, hbp] at h <;> simp [← h]
    | itinerary_planner =>
      left
      cases hbp : s.basic_plan <;> simp [graphNodeFn, itinerary_planner_node, hbp] at h <;>
        simp [← h]
    | itinerary_researcher =>
      left
      cases hst : s.task <;> simp [graphNodeFn, itinerary_researcher_node, hst] at h <;>
        simp [← h]
    | itinerary_optimizer =>
      left
      cases hst : s.task with
      | none => simp [graphNodeFn, itinerary_optimizer_node, hst] at h
      | some t =>
        cases hre : s.research <;>
          simp [graphNodeFn, itinerary_optimizer_node, hst, hre] at h <;> simp [← h]
  · intro s u h
    constructor
    · simp [AgentState.merge, h]
    · simp [exists_action, AgentState.merge, h]
  · intro o store tid input s0 t bp tS aS reply hs0 hreply hbp htS haS hst hpt hp hr
    subst hreply
    subst haS
    subst htS
    subst hbp
    subst hs0
    simp only [AgentState.merge] at hst hp hr
    simp [run, recursion_limit, runFrontier, runLevel, mapExcept, graphNodeFn,
      user_guide_node, destination_planner_node, transport_advisor_node,
      accommodation_advisor_node, itinerary_planner_node, hst, hpt, hp, hr,
      AgentState.merge, nextFrontier, successors, exists_action, resolveLabel,
      user_guide_mapping, edges, dedupFirst, Dest.asNode]

/-- C10 witness: with `task = "Plan: old trip"` persisted in the thread's
checkpoint and a plain `"hello"` entry reply, the next turn still takes the
full plan path, routed by the previous turn's task. -/
theorem task_never_cleared_routing_sticky_witness :
    run (graphNodeFn
        { userGuideReply := fun _ => ⟨"assistant", "hello"⟩
          plannerReply := fun _ => "basic plan"
          transportQueries := fun _ => ["tq1"]
          accommodationQueries := fun _ => ["aq1"]
          itineraryReply := fun _ _ => ⟨"assistant", "final itinerary"⟩
          researcherQueries := fun _ => ["rq"]
          optimizerReply := fun _ _ => ⟨"assistant", "opt"⟩
          tavilyAnswer := fun q => "ans-" ++ q })
      [("t1", ⟨[], some "Plan: old trip", none, [], none⟩)] "t1"
      { messages := some [⟨"user", "hello there"⟩] } =
    Except.ok
      ([("t1", ⟨[⟨"user", "hello there"⟩, ⟨"assistant", "hello"⟩,
            ⟨"assistant", "final itinerary"⟩],
          some "Plan: old trip", some "basic plan", [["ans-tq1"], ["ans-aq1"]], none⟩),
        ("t1", ⟨[], some "Plan: old trip", none, [], none⟩)],
        ⟨[⟨"user", "hello there"⟩, ⟨"assistant", "hello"⟩, ⟨"assistant", "final itinerary"⟩],
          some "Plan: old trip", some "basic plan", [["ans-tq1"], ["ans-aq1"]], none⟩,
        [[Node.user_guide], [Node.destination_planner],
          [Node.transport_advisor, Node.accommodation_advisor],
          [Node.itinerary_planner]]) := by
  simpa using
    task_never_cleared_routing_sticky.2.2
      { userGuideReply := fun _ => ⟨"assistant", "hello"⟩
        plannerReply := fun _ => "basic plan"
        transportQueries := fun _ => ["tq1"]
        accommodationQueries := fun _ => ["aq1"]
        itineraryReply := fun _ _ => ⟨"assistant", "final itinerary"⟩
        researcherQueries := fun _ => ["rq"]
        optimizerReply := fun _ _ => ⟨"assistant", "opt"⟩
        tavilyAnswer := fun q => "ans-" ++ q }
      [("t1", ⟨[], some "Plan: old trip", none, [], none⟩)] "t1"
      { messages := some [⟨"user", "hello there"⟩] }
      ⟨[⟨"user", "hello there"⟩], some "Plan: old trip", none, [], none⟩
      "Plan: old trip" "basic plan" ["ans-tq1"] ["ans-aq1"] ⟨"assistant", "hello"⟩
      rfl rfl rfl rfl rfl rfl (by rfl) (by rfl) (by rfl)

end TravelAgent
